import Mathlib

/-!
Shallow embedding of `tutorials/functionObject/openfoam-ensemble.py`: the
field-name resolution protocol (`get_field_name`) and the ensemble query
driver loop. Python values that can reach a Jinja2 template are modelled by
`PyVal`; the Jinja2 templating subset the script uses (plain double-brace
variable interpolation with the default `Environment()`, hence default
`Undefined` semantics: a variable that was not supplied renders as the empty
string, and `None` renders as the literal text `None`) is modelled by a small
parser `parseT` and renderer `renderNodes`. The SmartRedis client and the
experiment database are external collaborators (not part of this repository),
modelled per the spec's interface description (section 6): a static store of
datasets and tensors, a client addressing state (data source plus the four
ensemble-prefix toggles), and an effect trace recording every client call.
-/

/-- A Python value as it can be passed to `Template.render` by the script:
`None`, an `int`, or a `str`. -/
inductive PyVal where
  | pynone : PyVal
  | int : Int → PyVal
  | str : String → PyVal
deriving DecidableEq

/-- The character `{` (written via its code point to keep string handling
uniform with the template sources). -/
def lbrace : Char := Char.ofNat 123

/-- The character `}`. -/
def rbrace : Char := Char.ofNat 125

/-- Drop the whitespace around a variable name, as Jinja2 tolerates
`{{ name }}` with spaces inside the braces. -/
def trimChars (l : List Char) : List Char :=
  ((l.dropWhile Char.isWhitespace).reverse.dropWhile Char.isWhitespace).reverse

/-- Scan forward to the first closing `}}`, returning the characters before
it and the remainder after it; `none` when the variable block is never
closed (a Jinja2 syntax error). -/
def splitAtClose : List Char → Option (List Char × List Char)
  | [] => Option.none
  | c :: rest =>
    if c == rbrace then
      match rest with
      | c2 :: rest2 =>
        if c2 == rbrace then some ([], rest2)
        else (splitAtClose rest).map (fun p => (c :: p.1, p.2))
      | [] => Option.none
    else (splitAtClose rest).map (fun p => (c :: p.1, p.2))

/-- One node of a parsed template: a literal character or a `{{variable}}`
reference. -/
inductive TNode where
  | lit : Char → TNode
  | var : String → TNode
deriving DecidableEq

/-- Fuel-indexed template parser: a `{{name}}` block becomes `TNode.var`,
every other character is literal text.  The fuel only bounds the recursion
(each step consumes at least one character), so `parseT` supplies
`l.length` and the out-of-fuel branch is unreachable. -/
def parseTF : Nat → List Char → Option (List TNode)
  | _, [] => some []
  | 0, _ :: _ => Option.none
  | Nat.succ k, c :: rest =>
    if c == lbrace then
      match rest with
      | c2 :: rest2 =>
        if c2 == lbrace then
          match splitAtClose rest2 with
          | some (v, rem) => (parseTF k rem).map (fun ns => TNode.var (String.mk (trimChars v)) :: ns)
          | Option.none => Option.none
        else (parseTF k rest).map (fun ns => TNode.lit c :: ns)
      | [] => (parseTF k rest).map (fun ns => TNode.lit c :: ns)
    else (parseTF k rest).map (fun ns => TNode.lit c :: ns)

/-- Parse a template (`jinja2.Environment.from_string` on the subset used by
the script); `none` models a `TemplateSyntaxError`. -/
def parseT (l : List Char) : Option (List TNode) :=
  parseTF l.length l

/-- Keyword-argument lookup for `Template.render(**params)`. -/
def lookupParam (params : List (String × PyVal)) (k : String) : Option PyVal :=
  (params.find? (fun p => p.1 == k)).map Prod.snd

/-- How Jinja2 prints a looked-up value with the default `Environment()`:
an unsupplied variable is the default `Undefined`, which prints as the empty
string; `None` prints as `None`; ints and strings print as themselves. -/
def renderVal : Option PyVal → String
  | Option.none => ""
  | some PyVal.pynone => "None"
  | some (PyVal.int n) => toString n
  | some (PyVal.str s) => s

/-- Render a parsed template against the supplied named parameters. -/
def renderNodes (params : List (String × PyVal)) : List TNode → String
  | [] => ""
  | TNode.lit c :: ns => String.singleton c ++ renderNodes params ns
  | TNode.var v :: ns => renderVal (lookupParam params v) ++ renderNodes params ns

/-- `env.from_string(t).render(**params)`: `none` models a template syntax
error at `from_string`. -/
def renderTemplate (t : String) (params : List (String × PyVal)) : Option String :=
  (parseT t.data).map (renderNodes params)

/-- The named parameters of the dataset-name rendering:
`render(time_index=timestep, mpi_rank=processor)`, with `timestep=None`
becoming the Python `None` value. -/
def dsParams (processor : Int) (timestep : Option Int) : List (String × PyVal) :=
  [("time_index", match timestep with | some n => PyVal.int n | Option.none => PyVal.pynone),
   ("mpi_rank", PyVal.int processor)]

/-- The named parameters of the field-name rendering:
`render(name=field_name, patch="internal")`. -/
def fParams (field_name : String) : List (String × PyVal) :=
  [("name", PyVal.str field_name), ("patch", PyVal.str "internal")]

/-- A store dataset: named string-metadata fields (`get_meta_strings`), each
a sequence of strings. -/
structure Dataset where
  meta_strings : List (String × List String)
deriving DecidableEq

/-- `Dataset.get_meta_strings`: `none` models the SmartRedis error raised
when the metadata field does not exist on the dataset. -/
def Dataset.get_meta_strings (d : Dataset) (k : String) : Option (List String) :=
  (d.meta_strings.find? (fun p => p.1 == k)).map Prod.snd

/-- The store contents visible to one resolver call: the datasets and the
set of existing tensor keys.  The store is static during a call, so polling
for a dataset returns its (unchanging) existence. -/
structure Store where
  datasets : List (String × Dataset)
  tensors : List String
deriving DecidableEq

/-- `Client.poll_dataset(name, num_tries, interval_ms)` of the external
store client (interface per the spec, section 6): against a static store the
outcome is simply whether the dataset exists; the retry arguments are
recorded in the effect trace. -/
def Store.poll_dataset (s : Store) (name : String) (num_tries interval_ms : Nat) : Bool :=
  s.datasets.any (fun p => p.1 == name)

/-- `Client.get_dataset(name)`. -/
def Store.get_dataset (s : Store) (name : String) : Option Dataset :=
  (s.datasets.find? (fun p => p.1 == name)).map Prod.snd

/-- `Client.tensor_exists(key)`. -/
def Store.tensor_exists (s : Store) (key : String) : Bool :=
  s.tensors.contains key

/-- The mutable addressing state of the store client: the data source and
the four ensemble-prefixing toggles (`use_dataset_ensemble_prefix` and
friends in the SmartRedis API). -/
structure ClientState where
  data_source : Option String
  dataset_ens_pfx : Bool
  list_ens_pfx : Bool
  model_ens_pfx : Bool
  tensor_ens_pfx : Bool
deriving DecidableEq

/-- A fresh client, before any addressing-mode call. -/
def initClient : ClientState :=
  { data_source := Option.none, dataset_ens_pfx := false, list_ens_pfx := false,
    model_ens_pfx := false, tensor_ens_pfx := false }

/-- One call made on the store client, recorded in order.  The four
`use_*_ens_pfx` constructors stand for the SmartRedis
`use_dataset_ensemble_prefix` / `use_list_ensemble_prefix` /
`use_model_ensemble_prefix` / `use_tensor_ensemble_prefix` calls. -/
inductive Effect where
  | set_data_source : String → Effect
  | use_dataset_ens_pfx : Bool → Effect
  | use_list_ens_pfx : Bool → Effect
  | use_model_ens_pfx : Bool → Effect
  | use_tensor_ens_pfx : Bool → Effect
  | poll_dataset : String → Nat → Nat → Effect
  | get_dataset : String → Effect
  | tensor_exists : String → Effect
deriving DecidableEq

/-- Is this effect a mutation of the client's addressing mode? -/
def Effect.isAddressing : Effect → Bool
  | Effect.set_data_source _ => true
  | Effect.use_dataset_ens_pfx _ => true
  | Effect.use_list_ens_pfx _ => true
  | Effect.use_model_ens_pfx _ => true
  | Effect.use_tensor_ens_pfx _ => true
  | _ => false

/-- Is this effect a `tensor_exists` query? -/
def Effect.isTensorExists : Effect → Bool
  | Effect.tensor_exists _ => true
  | _ => false

/-- An ensemble member, as far as the resolver consumes it: its name. -/
structure Member where
  name : String
deriving DecidableEq

/-- The Python exceptions the resolver can raise. -/
inductive PyErr where
  | valueError : String → PyErr
  | keyError : String → PyErr
  | redisReplyError : String → PyErr
  | redisKeyError : String → PyErr
  | indexError : PyErr
  | templateSyntaxError : PyErr
deriving DecidableEq

/-- `os.environ[key]` as a lookup in an explicit environment. -/
def envLookup (osEnv : List (String × String)) (key : String) : Option String :=
  (osEnv.find? (fun p => p.1 == key)).map Prod.snd

/-- The `if (ensemble_member != None):` block at the top of
`get_field_name`: with a member, set the client's data source to the
member's name and enable all four ensemble-prefix toggles; without one,
leave the client untouched.  Returns the new client state and the client
calls made. -/
def apply_member (client : ClientState) : Option Member → ClientState × List Effect
  | Option.none => (client, [])
  | some m =>
    ({ data_source := some m.name, dataset_ens_pfx := true, list_ens_pfx := true,
       model_ens_pfx := true, tensor_ens_pfx := true },
     [Effect.set_data_source m.name, Effect.use_dataset_ens_pfx true,
      Effect.use_list_ens_pfx true, Effect.use_model_ens_pfx true,
      Effect.use_tensor_ens_pfx true])

/-- The metadata-to-key rendering of `get_field_name`, once the metadata
dataset `meta` has been fetched:
`get_meta_strings("dataset")[0]` parsed and rendered with
`time_index=timestep, mpi_rank=processor`, then
`get_meta_strings("field")[0]` parsed and rendered with
`name=field_name, patch="internal"`, composed as
`f"\x7b\x7b\x7bds_name\x7d\x7d\x7d.\x7bf_name\x7d"`, i.e. literal braces
around the dataset-name segment followed by a dot and the field name. -/
def render_meta (meta : Dataset) (field_name : String) (processor : Int)
    (timestep : Option Int) : Except PyErr String :=
  match Dataset.get_meta_strings meta "dataset" with
  | Option.none => Except.error (PyErr.redisKeyError "dataset")
  | some dsList =>
    match dsList with
    | [] => Except.error PyErr.indexError
    | dsT :: _ =>
      match parseT dsT.data with
      | Option.none => Except.error PyErr.templateSyntaxError
      | some dsNodes =>
        let ds_rendered := renderNodes (dsParams processor timestep) dsNodes
        match Dataset.get_meta_strings meta "field" with
        | Option.none => Except.error (PyErr.redisKeyError "field")
        | some fList =>
          match fList with
          | [] => Except.error PyErr.indexError
          | fT :: _ =>
            match parseT fT.data with
            | Option.none => Except.error PyErr.templateSyntaxError
            | some fNodes =>
              Except.ok ("\x7b" ++ ds_rendered ++ "\x7d." ++ renderNodes (fParams field_name) fNodes)

/-- The store-facing part of `get_field_name`, after the member block:
compute `ds_name = f"\x7bfn_name\x7d_metadata"`, poll for it with the fixed
bound `(10, 1000)`, on failure raise
`ValueError(f"Could not find dataset \x7bds_name\x7d under prefix \x27\x7bos.environ[\x27SSKEYIN\x27]\x7d\x27")`
— which first evaluates `os.environ[\x27SSKEYIN\x27]` and so raises `KeyError`
when that variable is absent — otherwise fetch the dataset and render the key.
Returns the client calls made and the outcome. -/
def resolve_core (store : Store) (osEnv : List (String × String))
    (fn_name field_name : String) (processor : Int) (timestep : Option Int) :
    List Effect × Except PyErr String :=
  let ds_name := fn_name ++ "_metadata"
  if Store.poll_dataset store ds_name 10 1000 then
    match Store.get_dataset store ds_name with
    | Option.none =>
      ([Effect.poll_dataset ds_name 10 1000, Effect.get_dataset ds_name],
       Except.error (PyErr.redisReplyError ds_name))
    | some meta =>
      ([Effect.poll_dataset ds_name 10 1000, Effect.get_dataset ds_name],
       render_meta meta field_name processor timestep)
  else
    ([Effect.poll_dataset ds_name 10 1000],
     match envLookup osEnv "SSKEYIN" with
     | Option.none => Except.error (PyErr.keyError "SSKEYIN")
     | some pfx =>
       Except.error (PyErr.valueError
         ("Could not find dataset " ++ ds_name ++ " under prefix \x27" ++ pfx ++ "\x27")))

/-- `get_field_name(client, fn_name, field_name, processor, timestep,
ensemble_member)`: the member block first (a side effect on the client's
addressing state), then the poll / fetch / render sequence.  Returns the
client state after the call, the ordered trace of client calls, and the
returned key or the raised exception. -/
def get_field_name (store : Store) (osEnv : List (String × String))
    (client : ClientState) (fn_name field_name : String) (processor : Int)
    (timestep : Option Int) (ensemble_member : Option Member) :
    ClientState × List Effect × Except PyErr String :=
  let mc := apply_member client ensemble_member
  let core := resolve_core store osEnv fn_name field_name processor timestep
  (mc.1, mc.2 ++ core.1, core.2)

/-- The resolver call the driver loop makes for member `e`:
`get_field_name(client, "pUPhiTest", "U", 0, 1, e)`.  Its returned value
does not depend on the client's prior addressing state (the member block
overwrites it), so it is stated against a fresh client. -/
def resolved_U_key (store : Store) (osEnv : List (String × String)) (e : Member) :
    Except PyErr String :=
  (get_field_name store osEnv initClient "pUPhiTest" "U" 0 (some 1) (some e)).2.2

/-- One iteration of the driver loop: resolve the key for member `e`, then
query `client.tensor_exists` on it once; an exception from the resolver
propagates. -/
def query_member (store : Store) (osEnv : List (String × String))
    (client : ClientState) (e : Member) :
    ClientState × List Effect × Except PyErr (String × Bool) :=
  let r := get_field_name store osEnv client "pUPhiTest" "U" 0 (some 1) (some e)
  match r.2.2 with
  | Except.error err => (r.1, r.2.1, Except.error err)
  | Except.ok u =>
    (r.1, r.2.1 ++ [Effect.tensor_exists u],
     Except.ok (u, Store.tensor_exists store u))

/-- The driver loop `for e in ensemble:` over the member list: per member it
reports `(e.name, resolved key, tensor_exists result)`; the first exception
aborts the remaining iterations. -/
def ensemble_query_loop (store : Store) (osEnv : List (String × String)) :
    ClientState → List Member → ClientState × List Effect × Except PyErr (List (String × String × Bool))
  | c, [] => (c, [], Except.ok [])
  | c, e :: rest =>
    let q := query_member store osEnv c e
    match q.2.2 with
    | Except.error err => (q.1, q.2.1, Except.error err)
    | Except.ok ub =>
      let r := ensemble_query_loop store osEnv q.1 rest
      match r.2.2 with
      | Except.error err => (r.1, q.2.1 ++ r.2.1, Except.error err)
      | Except.ok l => (r.1, q.2.1 ++ r.2.1, Except.ok ((e.name, ub.1, ub.2) :: l))

/-- The per-member line the driver reports when the resolution succeeds. -/
def member_report (store : Store) (osEnv : List (String × String)) (e : Member) :
    String × String × Bool :=
  match resolved_U_key store osEnv e with
  | Except.ok k => (e.name, k, Store.tensor_exists store k)
  | Except.error _ => (e.name, "", false)

/-- Did the computation return a value (no exception)? -/
def isOkE {α : Type} (x : Except PyErr α) : Bool :=
  match x with
  | Except.ok _ => true
  | Except.error _ => false

/-- The dataset-name template the spec's worked example stores:
`ts\x7b\x7btime_index\x7d\x7d_p\x7b\x7bmpi_rank\x7d\x7d`. -/
def demoDsTemplate : String := "ts\x7b\x7btime_index\x7d\x7d_p\x7b\x7bmpi_rank\x7d\x7d"

/-- The field-name template the spec's worked example stores:
`\x7b\x7bname\x7d\x7d_\x7b\x7bpatch\x7d\x7d`. -/
def demoFTemplate : String := "\x7b\x7bname\x7d\x7d_\x7b\x7bpatch\x7d\x7d"

/-- A metadata dataset holding the worked example's two templates. -/
def demoMeta : Dataset :=
  { meta_strings := [("dataset", [demoDsTemplate]), ("field", [demoFTemplate])] }

/-- A store in which `pUPhiTest` has published the worked example's
metadata and the resolved `U` tensor exists. -/
def demoStore : Store :=
  { datasets := [("pUPhiTest_metadata", demoMeta)],
    tensors := ["\x7bts1_p0\x7d.U_internal"] }

/-- A store with no datasets and no tensors. -/
def emptyStore : Store := { datasets := [], tensors := [] }

/-- A metadata dataset whose dataset-name template references the parameter
`bogus`, which the resolver never supplies. -/
def bogusMeta : Dataset :=
  { meta_strings := [("dataset", ["\x7b\x7bbogus\x7d\x7d"]), ("field", [demoFTemplate])] }

/-- A store publishing `bogusMeta` for `pUPhiTest` and holding no tensors. -/
def bogusStore : Store :=
  { datasets := [("pUPhiTest_metadata", bogusMeta)], tensors := [] }

/-- An OS environment in which `SSKEYIN` is configured. -/
def sskeyinEnv : List (String × String) := [("SSKEYIN", "mesh-study_0,mesh-study_1")]

theorem string_data_append (a b : String) : (a ++ b).data = a.data ++ b.data := by
  cases a; cases b; rfl

theorem string_data_singleton (c : Char) : (String.singleton c).data = [c] := rfl

theorem string_eq_of_data {a b : String} (h : a.data = b.data) : a = b := by
  cases a; cases b; exact congrArg String.mk h

/-- Every client call `resolve_core` makes is a poll or a fetch, never an
addressing-mode mutation and never a tensor-existence query. -/
theorem resolve_core_effects (store : Store) (osEnv : List (String × String))
    (fn_name field_name : String) (processor : Int) (timestep : Option Int) :
    ∀ ef ∈ (resolve_core store osEnv fn_name field_name processor timestep).1,
      Effect.isAddressing ef = false ∧ Effect.isTensorExists ef = false := by
  intro ef h
  unfold resolve_core at h
  by_cases hp : Store.poll_dataset store (fn_name ++ "_metadata") 10 1000 = true
  · cases hg : Store.get_dataset store (fn_name ++ "_metadata") with
    | none =>
      simp [hp, hg] at h
      rcases h with h | h <;> subst h <;> exact ⟨rfl, rfl⟩
    | some meta =>
      simp [hp, hg] at h
      rcases h with h | h <;> subst h <;> exact ⟨rfl, rfl⟩
  · simp [hp] at h
    subst h
    exact ⟨rfl, rfl⟩

theorem apply_member_none (client : ClientState) :
    apply_member client Option.none = (client, []) := rfl

/-- The member block of `get_field_name` ignores the client's prior state
entirely when a member is supplied. -/
theorem apply_member_some (client : ClientState) (m : Member) :
    apply_member client (some m) =
      ({ data_source := some m.name, dataset_ens_pfx := true, list_ens_pfx := true,
         model_ens_pfx := true, tensor_ens_pfx := true },
       [Effect.set_data_source m.name, Effect.use_dataset_ens_pfx true,
        Effect.use_list_ens_pfx true, Effect.use_model_ens_pfx true,
        Effect.use_tensor_ens_pfx true]) := rfl

/-- C1: for every resolver call in which the metadata dataset is found and
holds template strings `dsT` (key `dataset`) and `fT` (key `field`), the
returned string is `\x7b` + render(dsT, time_index=timestep,
mpi_rank=processor) + `\x7d.` + render(fT, name=field_name,
patch="internal"); the witness instantiates the spec's worked example and
obtains `\x7bts1_p0\x7d.U_internal`. -/
theorem get_field_name_composes_templates
    (store : Store) (osEnv : List (String × String)) (client : ClientState)
    (fn_name field_name : String) (processor : Int) (timestep : Option Int)
    (em : Option Member) (meta : Dataset) (dsT fT : String)
    (dsRest fRest : List String) (rds rf : String)
    (hpoll : Store.poll_dataset store (fn_name ++ "_metadata") 10 1000 = true)
    (hget : Store.get_dataset store (fn_name ++ "_metadata") = some meta)
    (hds : Dataset.get_meta_strings meta "dataset" = some (dsT :: dsRest))
    (hf : Dataset.get_meta_strings meta "field" = some (fT :: fRest))
    (hrds : renderTemplate dsT (dsParams processor timestep) = some rds)
    (hrf : renderTemplate fT (fParams field_name) = some rf) :
    (get_field_name store osEnv client fn_name field_name processor timestep em).2.2
      = Except.ok ("\x7b" ++ rds ++ "\x7d." ++ rf) := by
  unfold renderTemplate at hrds hrf
  obtain ⟨dsNodes, hdsP, hdsR⟩ := Option.map_eq_some'.mp hrds
  obtain ⟨fNodes, hfP, hfR⟩ := Option.map_eq_some'.mp hrf
  show (resolve_core store osEnv fn_name field_name processor timestep).2 = _
  unfold resolve_core render_meta
  simp [hpoll, hget, hds, hf, hdsP, hfP, hdsR, hfR]

theorem get_field_name_composes_templates_witness :
    (get_field_name demoStore [] initClient "pUPhiTest" "U" 0 (some 1) Option.none).2.2
      = Except.ok "\x7bts1_p0\x7d.U_internal" := by
  have h := get_field_name_composes_templates demoStore [] initClient "pUPhiTest" "U" 0 (some 1)
      Option.none demoMeta demoDsTemplate demoFTemplate [] [] "ts1_p0" "U_internal"
      rfl rfl rfl rfl rfl rfl
  exact h

/-- C2: every resolver call polls the store for the dataset named exactly
`fn_name ++ "_metadata"` with the fixed bound of 10 attempts at 1000 ms
intervals, and when the dataset is absent after the bound (and the inbound
key prefix `SSKEYIN` is configured) the call raises a `ValueError` whose
message contains that dataset name and the configured prefix, returning no
key. -/
theorem get_field_name_poll_bound_notfound
    (store : Store) (osEnv : List (String × String)) (client : ClientState)
    (fn_name field_name : String) (processor : Int) (timestep : Option Int)
    (em : Option Member) (pfx : String)
    (hpfx : envLookup osEnv "SSKEYIN" = some pfx)
    (habsent : Store.poll_dataset store (fn_name ++ "_metadata") 10 1000 = false) :
    Effect.poll_dataset (fn_name ++ "_metadata") 10 1000
        ∈ (get_field_name store osEnv client fn_name field_name processor timestep em).2.1 ∧
    (get_field_name store osEnv client fn_name field_name processor timestep em).2.2
      = Except.error (PyErr.valueError
          ("Could not find dataset " ++ (fn_name ++ "_metadata") ++ " under prefix \x27" ++ pfx ++ "\x27")) ∧
    (∃ a b, "Could not find dataset " ++ (fn_name ++ "_metadata") ++ " under prefix \x27" ++ pfx ++ "\x27"
        = a ++ (fn_name ++ "_metadata") ++ b) ∧
    (∃ a b, "Could not find dataset " ++ (fn_name ++ "_metadata") ++ " under prefix \x27" ++ pfx ++ "\x27"
        = a ++ pfx ++ b) := by
  have hcore : (resolve_core store osEnv fn_name field_name processor timestep).1
      = [Effect.poll_dataset (fn_name ++ "_metadata") 10 1000] := by
    unfold resolve_core
    simp [habsent]
  refine ⟨?_, ?_, ?_, ?_⟩
  · show Effect.poll_dataset (fn_name ++ "_metadata") 10 1000
        ∈ (apply_member client em).2 ++ (resolve_core store osEnv fn_name field_name processor timestep).1
    rw [hcore]
    simp
  · show (resolve_core store osEnv fn_name field_name processor timestep).2 = _
    unfold resolve_core
    simp [habsent, hpfx]
  · refine ⟨"Could not find dataset ", " under prefix \x27" ++ pfx ++ "\x27", ?_⟩
    apply string_eq_of_data
    simp [string_data_append]
  · refine ⟨"Could not find dataset " ++ (fn_name ++ "_metadata") ++ " under prefix \x27", "\x27", ?_⟩
    apply string_eq_of_data
    simp [string_data_append]

theorem get_field_name_poll_bound_notfound_witness :
    Effect.poll_dataset ("pUPhiTest" ++ "_metadata") 10 1000
        ∈ (get_field_name emptyStore sskeyinEnv initClient "pUPhiTest" "U" 0 (some 1) Option.none).2.1 ∧
    (get_field_name emptyStore sskeyinEnv initClient "pUPhiTest" "U" 0 (some 1) Option.none).2.2
      = Except.error (PyErr.valueError
          ("Could not find dataset " ++ ("pUPhiTest" ++ "_metadata") ++ " under prefix \x27"
            ++ "mesh-study_0,mesh-study_1" ++ "\x27")) ∧
    (∃ a b, "Could not find dataset " ++ ("pUPhiTest" ++ "_metadata") ++ " under prefix \x27"
            ++ "mesh-study_0,mesh-study_1" ++ "\x27"
        = a ++ ("pUPhiTest" ++ "_metadata") ++ b) ∧
    (∃ a b, "Could not find dataset " ++ ("pUPhiTest" ++ "_metadata") ++ " under prefix \x27"
            ++ "mesh-study_0,mesh-study_1" ++ "\x27"
        = a ++ "mesh-study_0,mesh-study_1" ++ b) := by
  have h := get_field_name_poll_bound_notfound emptyStore sskeyinEnv initClient "pUPhiTest" "U"
      0 (some 1) Option.none "mesh-study_0,mesh-study_1" rfl rfl
  exact h

/-- C9: on the metadata-not-found path the error message construction reads
`os.environ["SSKEYIN"]` unconditionally, so when polling exhausts its budget
while `SSKEYIN` is not set the call raises the `KeyError` from the
environment lookup, and the descriptive `ValueError` is raised only when
`SSKEYIN` is set. -/
theorem get_field_name_sskeyin_keyerror
    (store : Store) (osEnv : List (String × String)) (client : ClientState)
    (fn_name field_name : String) (processor : Int) (timestep : Option Int)
    (em : Option Member)
    (habsent : Store.poll_dataset store (fn_name ++ "_metadata") 10 1000 = false) :
    (envLookup osEnv "SSKEYIN" = Option.none →
      (get_field_name store osEnv client fn_name field_name processor timestep em).2.2
        = Except.error (PyErr.keyError "SSKEYIN")) ∧
    (∀ pfx, envLookup osEnv "SSKEYIN" = some pfx →
      (get_field_name store osEnv client fn_name field_name processor timestep em).2.2
        = Except.error (PyErr.valueError
            ("Could not find dataset " ++ (fn_name ++ "_metadata") ++ " under prefix \x27" ++ pfx ++ "\x27"))) := by
  constructor
  · intro hnone
    show (resolve_core store osEnv fn_name field_name processor timestep).2 = _
    unfold resolve_core
    simp [habsent, hnone]
  · intro pfx hpfx
    show (resolve_core store osEnv fn_name field_name processor timestep).2 = _
    unfold resolve_core
    simp [habsent, hpfx]

theorem get_field_name_sskeyin_keyerror_witness :
    (get_field_name emptyStore [] initClient "pUPhiTest" "U" 0 (some 1) Option.none).2.2
      = Except.error (PyErr.keyError "SSKEYIN") := by
  have h := get_field_name_sskeyin_keyerror emptyStore [] initClient "pUPhiTest" "U"
      0 (some 1) Option.none rfl
  exact h.1 rfl

/-- C4: with an ensemble member supplied, before any store lookup the client
data source is set to the member's name and all four ensemble-prefix toggles
(dataset, list, model, tensor) are enabled together: the trace starts with
exactly those five addressing calls and no later call mutates addressing. -/
theorem get_field_name_member_all_toggles
    (store : Store) (osEnv : List (String × String)) (client : ClientState)
    (fn_name field_name : String) (processor : Int) (timestep : Option Int)
    (m : Member) :
    (get_field_name store osEnv client fn_name field_name processor timestep (some m)).1
      = { data_source := some m.name, dataset_ens_pfx := true, list_ens_pfx := true,
          model_ens_pfx := true, tensor_ens_pfx := true } ∧
    ∃ rest,
      (get_field_name store osEnv client fn_name field_name processor timestep (some m)).2.1
        = Effect.set_data_source m.name :: Effect.use_dataset_ens_pfx true ::
          Effect.use_list_ens_pfx true :: Effect.use_model_ens_pfx true ::
          Effect.use_tensor_ens_pfx true :: rest ∧
      ∀ ef ∈ rest, Effect.isAddressing ef = false := by
  refine ⟨rfl, (resolve_core store osEnv fn_name field_name processor timestep).1, rfl, ?_⟩
  intro ef h
  exact (resolve_core_effects store osEnv fn_name field_name processor timestep ef h).1

theorem get_field_name_member_all_toggles_witness :
    (get_field_name demoStore [] initClient "pUPhiTest" "U" 0 (some 1) (some (Member.mk "mesh-study_0"))).1
      = { data_source := some "mesh-study_0", dataset_ens_pfx := true, list_ens_pfx := true,
          model_ens_pfx := true, tensor_ens_pfx := true } ∧
    ∃ rest,
      (get_field_name demoStore [] initClient "pUPhiTest" "U" 0 (some 1) (some (Member.mk "mesh-study_0"))).2.1
        = Effect.set_data_source "mesh-study_0" :: Effect.use_dataset_ens_pfx true ::
          Effect.use_list_ens_pfx true :: Effect.use_model_ens_pfx true ::
          Effect.use_tensor_ens_pfx true :: rest ∧
      ∀ ef ∈ rest, Effect.isAddressing ef = false :=
  get_field_name_member_all_toggles demoStore [] initClient "pUPhiTest" "U" 0 (some 1)
    (Member.mk "mesh-study_0")

/-- C5: without an ensemble member the resolver leaves the client's
addressing state completely unchanged and issues no addressing-mode call, so
addressing set by an earlier call persists across member-less calls. -/
theorem get_field_name_no_member_frame
    (store : Store) (osEnv : List (String × String)) (client : ClientState)
    (fn_name field_name : String) (processor : Int) (timestep : Option Int) :
    (get_field_name store osEnv client fn_name field_name processor timestep Option.none).1
      = client ∧
    ∀ ef ∈ (get_field_name store osEnv client fn_name field_name processor timestep Option.none).2.1,
      Effect.isAddressing ef = false := by
  refine ⟨rfl, ?_⟩
  intro ef h
  have h2 : ef ∈ (resolve_core store osEnv fn_name field_name processor timestep).1 := by
    simpa [get_field_name, apply_member] using h
  exact (resolve_core_effects store osEnv fn_name field_name processor timestep ef h2).1

theorem get_field_name_no_member_frame_witness :
    (get_field_name demoStore [] initClient "pUPhiTest" "U" 0 (some 1) Option.none).1
      = initClient ∧
    ∀ ef ∈ (get_field_name demoStore [] initClient "pUPhiTest" "U" 0 (some 1) Option.none).2.1,
      Effect.isAddressing ef = false :=
  get_field_name_no_member_frame demoStore [] initClient "pUPhiTest" "U" 0 (some 1)

/-- A metadata dataset lacking the `field` template key. -/
def noFieldMeta : Dataset := { meta_strings := [("dataset", [demoDsTemplate])] }

/-- A store publishing `noFieldMeta` for `pUPhiTest`. -/
def noFieldStore : Store :=
  { datasets := [("pUPhiTest_metadata", noFieldMeta)], tensors := [] }

/-- The parsed form of `demoDsTemplate`. -/
def demoDsNodes : List TNode :=
  [TNode.lit 't', TNode.lit 's', TNode.var "time_index",
   TNode.lit '_', TNode.lit 'p', TNode.var "mpi_rank"]

/-- The parsed form of `demoFTemplate`. -/
def demoFNodes : List TNode :=
  [TNode.var "name", TNode.lit '_', TNode.var "patch"]

/-- C6: when the metadata dataset exists but lacks the `dataset` or the
`field` string-metadata key, or either is an empty sequence, the call raises
instead of returning a key; when both are present only the first element of
each sequence is used (the tails are irrelevant to the result). -/
theorem get_field_name_malformed_metadata
    (store : Store) (osEnv : List (String × String)) (client : ClientState)
    (fn_name field_name : String) (processor : Int) (timestep : Option Int)
    (em : Option Member) (meta : Dataset)
    (hpoll : Store.poll_dataset store (fn_name ++ "_metadata") 10 1000 = true)
    (hget : Store.get_dataset store (fn_name ++ "_metadata") = some meta) :
    (Dataset.get_meta_strings meta "dataset" = Option.none →
      (get_field_name store osEnv client fn_name field_name processor timestep em).2.2
        = Except.error (PyErr.redisKeyError "dataset")) ∧
    (Dataset.get_meta_strings meta "dataset" = some [] →
      (get_field_name store osEnv client fn_name field_name processor timestep em).2.2
        = Except.error PyErr.indexError) ∧
    (∀ dsT dsRest dsNodes,
      Dataset.get_meta_strings meta "dataset" = some (dsT :: dsRest) →
      parseT dsT.data = some dsNodes →
      (Dataset.get_meta_strings meta "field" = Option.none →
        (get_field_name store osEnv client fn_name field_name processor timestep em).2.2
          = Except.error (PyErr.redisKeyError "field")) ∧
      (Dataset.get_meta_strings meta "field" = some [] →
        (get_field_name store osEnv client fn_name field_name processor timestep em).2.2
          = Except.error PyErr.indexError) ∧
      (∀ fT fRest fNodes,
        Dataset.get_meta_strings meta "field" = some (fT :: fRest) →
        parseT fT.data = some fNodes →
        (get_field_name store osEnv client fn_name field_name processor timestep em).2.2
          = Except.ok ("\x7b" ++ renderNodes (dsParams processor timestep) dsNodes
              ++ "\x7d." ++ renderNodes (fParams field_name) fNodes))) := by
  refine ⟨?_, ?_, ?_⟩
  · intro hds
    show (resolve_core store osEnv fn_name field_name processor timestep).2 = _
    unfold resolve_core render_meta
    simp [hpoll, hget, hds]
  · intro hds
    show (resolve_core store osEnv fn_name field_name processor timestep).2 = _
    unfold resolve_core render_meta
    simp [hpoll, hget, hds]
  · intro dsT dsRest dsNodes hds hdsP
    refine ⟨?_, ?_, ?_⟩
    · intro hfld
      show (resolve_core store osEnv fn_name field_name processor timestep).2 = _
      unfold resolve_core render_meta
      simp [hpoll, hget, hds, hdsP, hfld]
    · intro hfld
      show (resolve_core store osEnv fn_name field_name processor timestep).2 = _
      unfold resolve_core render_meta
      simp [hpoll, hget, hds, hdsP, hfld]
    · intro fT fRest fNodes hfld hfP
      show (resolve_core store osEnv fn_name field_name processor timestep).2 = _
      unfold resolve_core render_meta
      simp [hpoll, hget, hds, hdsP, hfld, hfP]

theorem get_field_name_malformed_metadata_witness :
    (get_field_name noFieldStore [] initClient "pUPhiTest" "U" 0 (some 1) Option.none).2.2
      = Except.error (PyErr.redisKeyError "field") := by
  have h := get_field_name_malformed_metadata noFieldStore [] initClient "pUPhiTest" "U"
      0 (some 1) Option.none noFieldMeta rfl rfl
  exact (h.2.2 demoDsTemplate [] demoDsNodes rfl rfl).1 rfl

/-- C8: with the metadata present and well formed, the resolver is a
deterministic function of `(store, environment, fn_name, field_name,
processor, timestep, ensemble_member)` — in particular its returned string
does not depend on the client's hidden addressing state — and it returns a
key. -/
theorem get_field_name_deterministic
    (store : Store) (osEnv : List (String × String)) (c1 c2 : ClientState)
    (fn_name field_name : String) (processor : Int) (timestep : Option Int)
    (em : Option Member) (meta : Dataset) (dsT fT : String)
    (dsRest fRest : List String) (dsNodes fNodes : List TNode)
    (hpoll : Store.poll_dataset store (fn_name ++ "_metadata") 10 1000 = true)
    (hget : Store.get_dataset store (fn_name ++ "_metadata") = some meta)
    (hds : Dataset.get_meta_strings meta "dataset" = some (dsT :: dsRest))
    (hdsP : parseT dsT.data = some dsNodes)
    (hf : Dataset.get_meta_strings meta "field" = some (fT :: fRest))
    (hfP : parseT fT.data = some fNodes) :
    (get_field_name store osEnv c1 fn_name field_name processor timestep em).2.2
      = (get_field_name store osEnv c2 fn_name field_name processor timestep em).2.2 ∧
    ∃ key, (get_field_name store osEnv c1 fn_name field_name processor timestep em).2.2
      = Except.ok key := by
  refine ⟨rfl, ?_⟩
  refine ⟨"\x7b" ++ renderNodes (dsParams processor timestep) dsNodes
      ++ "\x7d." ++ renderNodes (fParams field_name) fNodes, ?_⟩
  show (resolve_core store osEnv fn_name field_name processor timestep).2 = _
  unfold resolve_core render_meta
  simp [hpoll, hget, hds, hf, hdsP, hfP]

theorem get_field_name_deterministic_witness :
    (get_field_name demoStore sskeyinEnv initClient "pUPhiTest" "U" 0 (some 1) Option.none).2.2
      = (get_field_name demoStore sskeyinEnv
          { data_source := some "mesh-study_3", dataset_ens_pfx := true, list_ens_pfx := false,
            model_ens_pfx := true, tensor_ens_pfx := false }
          "pUPhiTest" "U" 0 (some 1) Option.none).2.2 ∧
    ∃ key, (get_field_name demoStore sskeyinEnv initClient "pUPhiTest" "U" 0 (some 1) Option.none).2.2
      = Except.ok key := by
  have h := get_field_name_deterministic demoStore sskeyinEnv initClient
      { data_source := some "mesh-study_3", dataset_ens_pfx := true, list_ens_pfx := false,
        model_ens_pfx := true, tensor_ens_pfx := false }
      "pUPhiTest" "U" 0 (some 1) Option.none demoMeta demoDsTemplate demoFTemplate [] []
      demoDsNodes demoFNodes rfl rfl rfl rfl rfl rfl
  exact h

/-- C3 fails on the code: with the dataset-name template referencing the
parameter `bogus`, which the resolver never supplies, the call does not fail
— it returns `\x7b\x7d.U_internal`, the missing parameter silently rendered
as the empty string (the script builds its templates with the default
`jinja2.Environment()`, whose default `Undefined` prints as empty instead of
raising). -/
theorem get_field_name_missing_param_counterexample :
    (get_field_name bogusStore [] initClient "pUPhiTest" "U" 0 (some 1) Option.none).2.2
      = Except.ok "\x7b\x7d.U_internal" := rfl

/-- C3 as amended: when a stored template references a parameter that is not
among the parameters supplied at rendering, the call still succeeds and the
missing parameter is silently rendered as the empty string in the returned
key (default-`Undefined` Jinja2 behaviour); no resolution error is raised. -/
theorem get_field_name_missing_param_renders_empty
    (store : Store) (osEnv : List (String × String)) (client : ClientState)
    (fn_name field_name : String) (processor : Int) (timestep : Option Int)
    (em : Option Member) (meta : Dataset) (dsRest fRest : List String)
    (hpoll : Store.poll_dataset store (fn_name ++ "_metadata") 10 1000 = true)
    (hget : Store.get_dataset store (fn_name ++ "_metadata") = some meta)
    (hds : Dataset.get_meta_strings meta "dataset" = some ("\x7b\x7bbogus\x7d\x7d" :: dsRest))
    (hf : Dataset.get_meta_strings meta "field" = some (demoFTemplate :: fRest)) :
    (get_field_name store osEnv client fn_name field_name processor timestep em).2.2
      = Except.ok ("\x7b\x7d." ++ (field_name ++ "_internal")) := by
  have hdsP : parseT ("\x7b\x7bbogus\x7d\x7d" : String).data = some [TNode.var "bogus"] := rfl
  have hfP : parseT demoFTemplate.data = some demoFNodes := rfl
  show (resolve_core store osEnv fn_name field_name processor timestep).2 = _
  unfold resolve_core render_meta
  simp only [hpoll, if_true, hget, hds, hf, hdsP, hfP]
  rfl

theorem get_field_name_missing_param_renders_empty_witness :
    (get_field_name bogusStore [] initClient "pUPhiTest" "U" 3 Option.none Option.none).2.2
      = Except.ok ("\x7b\x7d." ++ ("U" ++ "_internal")) := by
  have h := get_field_name_missing_param_renders_empty bogusStore [] initClient "pUPhiTest" "U"
      3 Option.none Option.none bogusMeta [] [] rfl rfl rfl rfl
  exact h

theorem data_empty : ("" : String).data = [] := rfl

theorem data_none_str : ("None" : String).data = ['N', 'o', 'n', 'e'] := rfl

theorem data_tsnone : ("tsNone_p" : String).data = ['t', 's', 'N', 'o', 'n', 'e', '_', 'p'] := rfl

theorem data_lb : ("\x7b" : String).data = [lbrace] := rfl

theorem data_rb_dot : ("\x7d." : String).data = [rbrace, '.'] := rfl

theorem data_lb_tsnone : ("\x7btsNone_p" : String).data
    = lbrace :: ("tsNone_p" : String).data := rfl

/-- C10: called without a timestep (the Python default `None`), with the
dataset-name template referencing `time_index`, the resolver does not fail
and does not substitute a numeric default: the template renders with
`time_index=None`, so the literal text `None` appears in the dataset-name
segment of the returned key. -/
theorem get_field_name_none_timestep_renders_none
    (store : Store) (osEnv : List (String × String)) (client : ClientState)
    (fn_name field_name : String) (processor : Int) (em : Option Member)
    (meta : Dataset) (dsRest fRest : List String)
    (hpoll : Store.poll_dataset store (fn_name ++ "_metadata") 10 1000 = true)
    (hget : Store.get_dataset store (fn_name ++ "_metadata") = some meta)
    (hds : Dataset.get_meta_strings meta "dataset" = some (demoDsTemplate :: dsRest))
    (hf : Dataset.get_meta_strings meta "field" = some (demoFTemplate :: fRest)) :
    renderTemplate demoDsTemplate (dsParams processor Option.none)
        = some ("tsNone_p" ++ toString processor) ∧
    (get_field_name store osEnv client fn_name field_name processor Option.none em).2.2
      = Except.ok ("\x7btsNone_p" ++ toString processor ++ "\x7d." ++ (field_name ++ "_internal")) := by
  have hdsP : parseT demoDsTemplate.data = some demoDsNodes := rfl
  have hfP : parseT demoFTemplate.data = some demoFNodes := rfl
  have l1 : lookupParam (dsParams processor Option.none) "time_index" = some PyVal.pynone := rfl
  have l2 : lookupParam (dsParams processor Option.none) "mpi_rank"
      = some (PyVal.int processor) := rfl
  have hrender : renderNodes (dsParams processor Option.none) demoDsNodes
      = "tsNone_p" ++ toString processor := by
    apply string_eq_of_data
    simp [demoDsNodes, renderNodes, l1, l2, renderVal, string_data_append,
      string_data_singleton, data_empty, data_none_str, data_tsnone]
  have hrF : renderNodes (fParams field_name) demoFNodes = field_name ++ "_internal" := rfl
  constructor
  · unfold renderTemplate
    rw [hdsP]
    simp [hrender]
  · show (resolve_core store osEnv fn_name field_name processor Option.none).2 = _
    unfold resolve_core render_meta
    simp only [hpoll, if_true, hget, hds, hf, hdsP, hfP]
    rw [hrender, hrF]
    refine congrArg Except.ok (string_eq_of_data ?_)
    simp [string_data_append, data_lb, data_rb_dot, data_lb_tsnone, data_tsnone]

theorem get_field_name_none_timestep_renders_none_witness :
    renderTemplate demoDsTemplate (dsParams 0 Option.none)
        = some ("tsNone_p" ++ toString (0 : Int)) ∧
    (get_field_name demoStore [] initClient "pUPhiTest" "U" 0 Option.none Option.none).2.2
      = Except.ok ("\x7btsNone_p" ++ toString (0 : Int) ++ "\x7d." ++ ("U" ++ "_internal")) := by
  have h := get_field_name_none_timestep_renders_none demoStore [] initClient "pUPhiTest" "U"
      0 Option.none demoMeta [] [] rfl rfl rfl rfl
  exact h

/-- The member block issues no tensor-existence query. -/
theorem apply_member_no_tensor_exists (client : ClientState) (om : Option Member) :
    ∀ ef ∈ (apply_member client om).2, Effect.isTensorExists ef = false := by
  cases om with
  | none =>
    intro ef h
    simp [apply_member] at h
  | some m =>
    intro ef h
    simp [apply_member] at h
    rcases h with h | h | h | h | h <;> subst h <;> rfl

/-- A store holding the worked example's metadata but no tensors, so every
existence query answers `false`. -/
def noTensorStore : Store :=
  { datasets := [("pUPhiTest_metadata", demoMeta)], tensors := [] }

/-- C7: the driver loop visits the members in order, resolves each with the
fixed arguments (`"pUPhiTest"`, `"U"`, rank 0, timestep 1, that member),
queries `tensor_exists` on the resolved key exactly once per member, and
reports the boolean per member — a `false` existence result is part of the
reported list, not an exception and not retried. -/
theorem ensemble_query_loop_reports_existence
    (store : Store) (osEnv : List (String × String)) (client : ClientState)
    (members : List Member)
    (h : ∀ e ∈ members, isOkE (resolved_U_key store osEnv e) = true) :
    (ensemble_query_loop store osEnv client members).2.2
      = Except.ok (members.map (member_report store osEnv)) ∧
    List.countP Effect.isTensorExists (ensemble_query_loop store osEnv client members).2.1
      = members.length := by
  revert h
  induction members generalizing client with
  | nil =>
    intro h
    exact ⟨rfl, rfl⟩
  | cons e rest ih =>
    intro h
    have he := h e (by simp)
    have hrest : ∀ x ∈ rest, isOkE (resolved_U_key store osEnv x) = true :=
      fun x hx => h x (by simp [hx])
    obtain ⟨k, hk⟩ : ∃ k, resolved_U_key store osEnv e = Except.ok k := by
      cases hek : resolved_U_key store osEnv e with
      | ok k => exact ⟨k, rfl⟩
      | error err =>
        rw [hek] at he
        simp [isOkE] at he
    have hk2 : (get_field_name store osEnv client "pUPhiTest" "U" 0 (some 1) (some e)).2.2
        = Except.ok k := hk
    have hq : query_member store osEnv client e
        = ((apply_member client (some e)).1,
           ((apply_member client (some e)).2
             ++ (resolve_core store osEnv "pUPhiTest" "U" 0 (some 1)).1)
             ++ [Effect.tensor_exists k],
           Except.ok (k, Store.tensor_exists store k)) := by
      unfold query_member
      simp only [hk2]
      rfl
    have hrep : member_report store osEnv e = (e.name, k, Store.tensor_exists store k) := by
      unfold member_report
      rw [hk]
    obtain ⟨ih1, ih2⟩ := ih (apply_member client (some e)).1 hrest
    have hcount1 : List.countP Effect.isTensorExists
        (((apply_member client (some e)).2
          ++ (resolve_core store osEnv "pUPhiTest" "U" 0 (some 1)).1)
          ++ [Effect.tensor_exists k]) = 1 := by
      rw [List.countP_append, List.countP_append]
      have z1 : List.countP Effect.isTensorExists (apply_member client (some e)).2 = 0 := by
        rw [List.countP_eq_zero]
        intro ef hef
        simp [apply_member_no_tensor_exists client (some e) ef hef]
      have z2 : List.countP Effect.isTensorExists
          (resolve_core store osEnv "pUPhiTest" "U" 0 (some 1)).1 = 0 := by
        rw [List.countP_eq_zero]
        intro ef hef
        simp [(resolve_core_effects store osEnv "pUPhiTest" "U" 0 (some 1) ef hef).2]
      rw [z1, z2]
      rfl
    constructor
    · show (ensemble_query_loop store osEnv client (e :: rest)).2.2 = _
      unfold ensemble_query_loop
      simp only [hq, ih1]
      simp [hrep]
    · show List.countP Effect.isTensorExists
          (ensemble_query_loop store osEnv client (e :: rest)).2.1 = _
      unfold ensemble_query_loop
      simp only [hq, ih1]
      rw [List.countP_append, hcount1, ih2, List.length_cons]
      omega

theorem ensemble_query_loop_reports_existence_witness :
    (ensemble_query_loop noTensorStore [] initClient
        [Member.mk "mesh-study_0", Member.mk "mesh-study_1"]).2.2
      = Except.ok ([Member.mk "mesh-study_0", Member.mk "mesh-study_1"].map
          (member_report noTensorStore [])) ∧
    List.countP Effect.isTensorExists
        (ensemble_query_loop noTensorStore [] initClient
          [Member.mk "mesh-study_0", Member.mk "mesh-study_1"]).2.1
      = [Member.mk "mesh-study_0", Member.mk "mesh-study_1"].length := by
  have h := ensemble_query_loop_reports_existence noTensorStore [] initClient
      [Member.mk "mesh-study_0", Member.mk "mesh-study_1"] (by decide)
  exact h
